import Mathlib

/-!
Verification development for the `pipeline` repository.

Embedded here, translated from the Python sources:
* the tag-name validation regex and the tag CRUD helpers of
  `pipeline/console/tags.py`;
* the parameter validation and seeding loop of
  `StableDiffusionTxt2ImgModel.predict` in the premade Stable Diffusion
  example;
* the file-upload schemas of `pipeline/schemas/file.py`.
-/

namespace PipelineRepo

/-!
### Tag-name validation (`pipeline/console/tags.py`)

The source compiles
`VALID_TAG_NAME = re.compile(r"^[a-z0-9][a-z0-9-._/]*[a-z0-9]:[0-9A-Za-z_][0-9A-Za-z-_.]{0,127}$")`
and uses `VALID_TAG_NAME.match(s)` as a boolean.  The character classes are
ASCII ranges, so we model strings as lists of `Char` and each class as a
boolean predicate.
-/

/-- Regex range `a-z`. -/
def isAsciiLower (c : Char) : Bool := 'a' ≤ c && c ≤ 'z'

/-- Regex range `A-Z`. -/
def isAsciiUpper (c : Char) : Bool := 'A' ≤ c && c ≤ 'Z'

/-- Regex range `0-9`. -/
def isAsciiDigit (c : Char) : Bool := '0' ≤ c && c ≤ '9'

/-- Regex class `[a-z0-9]`. -/
def isLowerAlnum (c : Char) : Bool := isAsciiLower c || isAsciiDigit c

/-- Separator characters of the name component (the literal `-`, `.`, `_`, `/`
members of the class `[a-z0-9-._/]`). -/
def isSeparatorChar (c : Char) : Bool := c = '.' || c = '_' || c = '-' || c = '/'

/-- Regex class `[a-z0-9-._/]` (the `-` after `0-9` is a literal dash). -/
def isNameChar (c : Char) : Bool := isLowerAlnum c || isSeparatorChar c

/-- Regex class `[0-9A-Za-z_]` (first character of the tag component). -/
def isTagFirst (c : Char) : Bool :=
  isAsciiDigit c || isAsciiUpper c || isAsciiLower c || c = '_'

/-- Regex class `[0-9A-Za-z-_.]` (the `-` after `a-z` is a literal dash). -/
def isTagChar (c : Char) : Bool := isTagFirst c || c = '-' || c = '.'

/-- Language of `[a-z0-9-._/]*[a-z0-9]`: every character but the last is a
name character and the last is lowercase alphanumeric. -/
def nameTail : List Char → Bool
  | [] => false
  | [c] => isLowerAlnum c
  | c :: cs => isNameChar c && nameTail cs

/-- Language of the name part `[a-z0-9][a-z0-9-._/]*[a-z0-9]`. -/
def nameMatch : List Char → Bool
  | [] => false
  | c :: cs => isLowerAlnum c && nameTail cs

/-- Language of the tag part `[0-9A-Za-z_][0-9A-Za-z-_.]{0,127}`. -/
def tagMatch : List Char → Bool
  | [] => false
  | c :: cs => isTagFirst c && decide (cs.length ≤ 127) && cs.all isTagChar

/-- Split a string at its first colon, returning the part before and the part
after.  The regex's name classes exclude `:`, so a match of the whole pattern
necessarily splits at the first colon. -/
def splitAtColon : List Char → Option (List Char × List Char)
  | [] => none
  | c :: cs =>
    if c = ':' then some ([], cs)
    else
      match splitAtColon cs with
      | some (n, t) => some (c :: n, t)
      | none => none

/-- Whole-string match of the regex body
`[a-z0-9][a-z0-9-._/]*[a-z0-9]:[0-9A-Za-z_][0-9A-Za-z-_.]{0,127}`. -/
def coreMatch (cs : List Char) : Bool :=
  match splitAtColon cs with
  | some (n, t) => nameMatch n && tagMatch t
  | none => false

/-- Truthiness of Python's `VALID_TAG_NAME.match(s)`.  The pattern is anchored
with `^` and `$`; in Python (without `re.MULTILINE`) `$` matches at the end of
the string and also just before a newline at the end of the string, so a
string consisting of a match of the body followed by one final newline is
also accepted. -/
def VALID_TAG_NAME_match (s : String) : Bool :=
  coreMatch s.data ||
    (if s.data.getLast? = some '\n' then coreMatch s.data.dropLast else false)

/-- Follows the spec's words (claim C1), not the code: a name component and a
tag component joined by a single `:`, where the name component consists only
of lowercase letters, digits and separator characters and the tag component
consists only of letters, digits, `-`, `_` and `.`. -/
def specTagDescription (s : String) : Bool :=
  match splitAtColon s.data with
  | some (n, t) => !n.isEmpty && !t.isEmpty && n.all isNameChar &&
      t.all isTagChar && !t.contains ':'
  | none => false

/-!
### Characterization lemmas for the matcher
-/

lemma isNameChar_of_isLowerAlnum {c : Char} (h : isLowerAlnum c = true) :
    isNameChar c = true := by
  simp [isNameChar, h]

lemma nameTail_iff (l : List Char) :
    nameTail l = true ↔
      ∃ mid b, l = mid ++ [b] ∧ (∀ c ∈ mid, isNameChar c = true) ∧
        isLowerAlnum b = true := by
  induction l with
  | nil =>
    simp [nameTail]
  | cons c cs ih =>
    cases cs with
    | nil =>
      simp only [nameTail]
      constructor
      · intro h
        exact ⟨[], c, rfl, by simp, h⟩
      · rintro ⟨mid, b, hl, hmid, hb⟩
        have hcb : c = b := by
          cases mid with
          | nil => simpa using hl
          | cons m ms =>
            simp only [List.cons_append, List.cons.injEq] at hl
            exact absurd hl.2.symm (by simp)
        rw [hcb]
        exact hb
    | cons d ds =>
      simp only [nameTail, Bool.and_eq_true]
      rw [ih]
      constructor
      · rintro ⟨hc, mid, b, hl, hmid, hb⟩
        refine ⟨c :: mid, b, by simp [hl], ?_, hb⟩
        intro x hx
        rcases List.mem_cons.1 hx with rfl | hx
        · exact hc
        · exact hmid x hx
      · rintro ⟨mid, b, hl, hmid, hb⟩
        cases mid with
        | nil => simp at hl
        | cons m ms =>
          simp only [List.cons_append, List.cons.injEq] at hl
          obtain ⟨rfl, hl2⟩ := hl
          refine ⟨hmid c (by simp), ms, b, hl2, ?_, hb⟩
          intro x hx
          exact hmid x (by simp [hx])

lemma nameMatch_iff (l : List Char) :
    nameMatch l = true ↔
      ∃ a mid b, l = a :: (mid ++ [b]) ∧ isLowerAlnum a = true ∧
        (∀ c ∈ mid, isNameChar c = true) ∧ isLowerAlnum b = true := by
  cases l with
  | nil => simp [nameMatch]
  | cons c cs =>
    simp only [nameMatch, Bool.and_eq_true]
    rw [nameTail_iff]
    constructor
    · rintro ⟨hc, mid, b, rfl, hmid, hb⟩
      exact ⟨c, mid, b, rfl, hc, hmid, hb⟩
    · rintro ⟨a, mid, b, hl, ha, hmid, hb⟩
      simp only [List.cons.injEq] at hl
      obtain ⟨rfl, rfl⟩ := hl
      exact ⟨ha, mid, b, rfl, hmid, hb⟩

lemma tagMatch_iff (l : List Char) :
    tagMatch l = true ↔
      ∃ a rest, l = a :: rest ∧ isTagFirst a = true ∧ rest.length ≤ 127 ∧
        (∀ c ∈ rest, isTagChar c = true) := by
  cases l with
  | nil => simp [tagMatch]
  | cons c cs =>
    simp only [tagMatch, Bool.and_eq_true, decide_eq_true_eq, List.all_eq_true]
    constructor
    · rintro ⟨⟨h1, h2⟩, h3⟩
      exact ⟨c, cs, rfl, h1, h2, h3⟩
    · rintro ⟨a, rest, hl, h1, h2, h3⟩
      simp only [List.cons.injEq] at hl
      obtain ⟨rfl, rfl⟩ := hl
      exact ⟨⟨h1, h2⟩, h3⟩

lemma nameMatch_all_nameChar {n : List Char} (h : nameMatch n = true) :
    ∀ c ∈ n, isNameChar c = true := by
  obtain ⟨a, mid, b, rfl, ha, hmid, hb⟩ := (nameMatch_iff n).1 h
  intro c hc
  rcases List.mem_cons.1 hc with rfl | hc
  · exact isNameChar_of_isLowerAlnum ha
  · rcases List.mem_append.1 hc with hc | hc
    · exact hmid c hc
    · rw [List.mem_singleton.1 hc]
      exact isNameChar_of_isLowerAlnum hb

lemma colon_not_nameChar : isNameChar ':' = false := by decide

lemma nameMatch_no_colon {n : List Char} (h : nameMatch n = true) : ':' ∉ n := by
  intro hmem
  have := nameMatch_all_nameChar h ':' hmem
  rw [colon_not_nameChar] at this
  exact Bool.false_ne_true this

lemma splitAtColon_eq_some_iff (cs n t : List Char) :
    splitAtColon cs = some (n, t) ↔ cs = n ++ ':' :: t ∧ ':' ∉ n := by
  induction cs generalizing n with
  | nil =>
    constructor
    · intro h
      simp [splitAtColon] at h
    · rintro ⟨h, -⟩
      simp at h
  | cons c cs ih =>
    rw [splitAtColon]
    by_cases hc : c = ':'
    · subst hc
      rw [if_pos rfl]
      constructor
      · intro h
        rw [Option.some.injEq, Prod.mk.injEq] at h
        obtain ⟨h1, h2⟩ := h
        subst h1
        subst h2
        simp
      · rintro ⟨heq, hnot⟩
        cases n with
        | nil =>
          simp only [List.nil_append, List.cons.injEq] at heq
          rw [heq.2]
        | cons m ms =>
          simp only [List.cons_append, List.cons.injEq] at heq
          have : ':' ∈ m :: ms := by
            rw [← heq.1]
            exact List.mem_cons_self _ _
          exact absurd this hnot
    · rw [if_neg hc]
      constructor
      · intro h
        cases hsp : splitAtColon cs with
        | none => simp [hsp] at h
        | some p =>
          obtain ⟨n', t'⟩ := p
          simp only [hsp, Option.some.injEq, Prod.mk.injEq] at h
          obtain ⟨hn, ht⟩ := h
          obtain ⟨hcs, hnot⟩ := (ih n').1 (by rw [hsp, ht])
          subst hn
          subst hcs
          refine ⟨by simp, ?_⟩
          intro hmem
          rcases List.mem_cons.1 hmem with h' | h'
          · exact hc h'.symm
          · exact hnot h'
      · rintro ⟨heq, hnot⟩
        cases n with
        | nil =>
          simp only [List.nil_append, List.cons.injEq] at heq
          exact absurd heq.1 hc
        | cons m ms =>
          simp only [List.cons_append, List.cons.injEq] at heq
          obtain ⟨rfl, hcs⟩ := heq
          have hnot' : ':' ∉ ms := fun h' => hnot (List.mem_cons_of_mem _ h')
          rw [(ih ms).2 ⟨hcs, hnot'⟩]

lemma coreMatch_iff (cs : List Char) :
    coreMatch cs = true ↔
      ∃ n t, cs = n ++ ':' :: t ∧ nameMatch n = true ∧ tagMatch t = true := by
  constructor
  · intro h
    unfold coreMatch at h
    cases hsp : splitAtColon cs with
    | none => rw [hsp] at h; exact absurd h (by simp)
    | some p =>
      obtain ⟨n, t⟩ := p
      rw [hsp] at h
      simp only [Bool.and_eq_true] at h
      obtain ⟨hcs, -⟩ := (splitAtColon_eq_some_iff cs n t).1 hsp
      exact ⟨n, t, hcs, h.1, h.2⟩
  · rintro ⟨n, t, rfl, h1, h2⟩
    have hsp : splitAtColon (n ++ ':' :: t) = some (n, t) :=
      (splitAtColon_eq_some_iff _ n t).2 ⟨rfl, nameMatch_no_colon h1⟩
    unfold coreMatch
    rw [hsp]
    simp [h1, h2]

lemma isTagFirst_of_isTagChar {c : Char} (h : isTagChar c = true)
    (hd : c ≠ '.') (hm : c ≠ '-') : isTagFirst c = true := by
  simp only [isTagChar, Bool.or_eq_true, decide_eq_true_eq] at h
  rcases h with (h | h) | h
  · exact h
  · exact absurd h hm
  · exact absurd h hd

lemma isTagChar_ne_newline {c : Char} (h : isTagChar c = true) : c ≠ '\n' := by
  rintro rfl
  exact absurd h (by decide)

/-- Claim C1, amended.  The tag validation used by the tag CRUD operations
accepts a string `s` iff `s`, possibly after removing one trailing newline
(tolerated by Python's `$` anchor), is a name component and a tag component
joined by a single `:`, where the name component is a lowercase letter or
digit, followed by any number of lowercase letters, digits or separators
(`.`, `_`, `-`, `/`), followed by a lowercase letter or digit (so it has at
least two characters and may not start or end with a separator), and the tag
component is a letter, digit or underscore followed by at most 127 further
characters drawn from letters, digits, `-`, `_` and `.` (so it has at most
128 characters and may not start with `.` or `-`). -/
theorem C1_tag_validation_characterization (s : String) :
    VALID_TAG_NAME_match s = true ↔
      ∃ core : List Char,
        (s.data = core ∨ s.data = core ++ ['\n']) ∧
        ∃ n t, core = n ++ ':' :: t ∧
          (∃ a mid b, n = a :: (mid ++ [b]) ∧ isLowerAlnum a = true ∧
            (∀ c ∈ mid, isNameChar c = true) ∧ isLowerAlnum b = true) ∧
          (∃ a rest, t = a :: rest ∧ isTagFirst a = true ∧ rest.length ≤ 127 ∧
            (∀ c ∈ rest, isTagChar c = true)) := by
  unfold VALID_TAG_NAME_match
  constructor
  · intro h
    rw [Bool.or_eq_true] at h
    rcases h with h | h
    · refine ⟨s.data, Or.inl rfl, ?_⟩
      obtain ⟨n, t, heq, h1, h2⟩ := (coreMatch_iff _).1 h
      exact ⟨n, t, heq, (nameMatch_iff n).1 h1, (tagMatch_iff t).1 h2⟩
    · split at h
      case isTrue hlast =>
        refine ⟨s.data.dropLast, Or.inr ?_, ?_⟩
        · exact (List.dropLast_append_getLast? '\n' hlast).symm
        · obtain ⟨n, t, heq, h1, h2⟩ := (coreMatch_iff _).1 h
          exact ⟨n, t, heq, (nameMatch_iff n).1 h1, (tagMatch_iff t).1 h2⟩
      case isFalse hlast => exact absurd h (by simp)
  · rintro ⟨core, hcore, n, t, hceq, hname, htag⟩
    have hc : coreMatch core = true :=
      (coreMatch_iff core).2
        ⟨n, t, hceq, (nameMatch_iff n).2 hname, (tagMatch_iff t).2 htag⟩
    rcases hcore with hd | hd
    · rw [hd, hc, Bool.true_or]
    · rw [hd]
      have h1 : (core ++ ['\n']).getLast? = some '\n' := by
        rw [List.getLast?_append_cons]
        rfl
      have h2 : (core ++ ['\n']).dropLast = core := by simp
      rw [Bool.or_eq_true]
      right
      rw [if_pos h1, h2]
      exact hc

set_option maxRecDepth 8192 in
/-- Claim C1, counterexamples to the claim as stated.  The spec-worded
description (`specTagDescription`) and the code's validation disagree in both
directions: `"a:b"`, `"aa:.b"` and a 129-character tag satisfy the spec's
description but are rejected, while `"ab:cd\n"` (trailing newline) is
accepted but does not satisfy the description. -/
theorem C1_tag_validation_counterexample :
    specTagDescription "a:b" = true ∧ VALID_TAG_NAME_match "a:b" = false ∧
    specTagDescription "aa:.b" = true ∧ VALID_TAG_NAME_match "aa:.b" = false ∧
    specTagDescription (String.mk ('a' :: 'a' :: ':' :: List.replicate 129 'b')) = true ∧
    VALID_TAG_NAME_match (String.mk ('a' :: 'a' :: ':' :: List.replicate 129 'b')) = false ∧
    VALID_TAG_NAME_match "ab:cd\n" = true ∧ specTagDescription "ab:cd\n" = false := by
  decide

/-- Claim C2: for a string built from a valid name component and a tag
component of tag characters, the validation accepts it when the tag component
has at most 128 characters and does not start with `.` or `-`, and rejects it
when the tag component has more than 128 characters. -/
theorem C2_tag_length_boundary (n t : List Char)
    (hn : nameMatch n = true) (ht : ∀ c ∈ t, isTagChar c = true) :
    (∀ a rest, t = a :: rest → a ≠ '.' → a ≠ '-' → t.length ≤ 128 →
      VALID_TAG_NAME_match (String.mk (n ++ ':' :: t)) = true) ∧
    (128 < t.length →
      VALID_TAG_NAME_match (String.mk (n ++ ':' :: t)) = false) := by
  constructor
  · intro a rest hta hd hm hlen
    have hcore : coreMatch (n ++ ':' :: t) = true := by
      apply (coreMatch_iff _).2
      refine ⟨n, t, rfl, hn, ?_⟩
      apply (tagMatch_iff t).2
      subst hta
      refine ⟨a, rest, rfl, isTagFirst_of_isTagChar (ht a (by simp)) hd hm, ?_, ?_⟩
      · simp only [List.length_cons] at hlen
        omega
      · intro c hc
        exact ht c (by simp [hc])
    have hrw : VALID_TAG_NAME_match (String.mk (n ++ ':' :: t)) =
        (coreMatch (n ++ ':' :: t) ||
          (if (n ++ ':' :: t).getLast? = some '\n' then
            coreMatch (n ++ ':' :: t).dropLast else false)) := rfl
    rw [hrw, hcore, Bool.true_or]
  · intro hlen
    have htne : t ≠ [] := by
      intro h
      rw [h] at hlen
      simp at hlen
    have hsplit : splitAtColon (n ++ ':' :: t) = some (n, t) :=
      (splitAtColon_eq_some_iff _ _ _).2 ⟨rfl, nameMatch_no_colon hn⟩
    have htag : tagMatch t = false := by
      cases htm : tagMatch t
      · rfl
      · obtain ⟨a, rest, hta, -, hlen', -⟩ := (tagMatch_iff t).1 htm
        rw [hta, List.length_cons] at hlen
        omega
    have hcore : coreMatch (n ++ ':' :: t) = false := by
      unfold coreMatch
      rw [hsplit]
      simp [htag]
    have hlast : ∀ c, (n ++ ':' :: t).getLast? = some c → c ≠ '\n' := by
      intro c hc
      rw [List.getLast?_append_cons] at hc
      cases t with
      | nil => exact absurd rfl htne
      | cons b bs =>
        rw [List.getLast?_cons_cons] at hc
        have hmem : c ∈ b :: bs := by
          obtain ⟨hne, hgl⟩ := List.mem_getLast?_eq_getLast hc
          rw [hgl]
          exact List.getLast_mem hne
        exact isTagChar_ne_newline (ht c hmem)
    have hrw : VALID_TAG_NAME_match (String.mk (n ++ ':' :: t)) =
        (coreMatch (n ++ ':' :: t) ||
          (if (n ++ ':' :: t).getLast? = some '\n' then
            coreMatch (n ++ ':' :: t).dropLast else false)) := rfl
    rw [hrw, hcore, Bool.false_or,
      if_neg (fun hceq => hlast '\n' hceq rfl)]

set_option maxRecDepth 8192 in
/-- Claim C2, witness: concrete instantiations of both directions of
`C2_tag_length_boundary`. -/
theorem C2_tag_length_boundary_witness :
    nameMatch ['a', 'b'] = true ∧
    (∀ c ∈ ['c'], isTagChar c = true) ∧
    VALID_TAG_NAME_match (String.mk (['a', 'b'] ++ ':' :: ['c'])) = true ∧
    (∀ c ∈ List.replicate 129 'b', isTagChar c = true) ∧
    VALID_TAG_NAME_match (String.mk (['a', 'b'] ++ ':' :: List.replicate 129 'b')) = false := by
  refine ⟨by decide, by decide, ?_, by decide, ?_⟩
  · exact (C2_tag_length_boundary ['a', 'b'] ['c'] (by decide) (by decide)).1
      'c' [] rfl (by decide) (by decide) (by decide)
  · exact (C2_tag_length_boundary ['a', 'b'] (List.replicate 129 'b')
      (by decide) (by decide)).2 (by decide)

/-- Claim C3: the validation pattern accepts `"my-model:v1.0"` and rejects
`"My-Model:v1"` (uppercase letters are not allowed in the name component). -/
theorem C3_tag_validation_scenario :
    VALID_TAG_NAME_match "my-model:v1.0" = true ∧
    VALID_TAG_NAME_match "My-Model:v1" = false := by
  decide

/-!
### Tag CRUD helpers (`pipeline/console/tags.py`)

The helpers `_get_tag`, `_update_or_create_tag`, `_list_tags` and
`_delete_tag` call the generic REST verbs `_get/_post/_patch/_delete` of
`PipelineCloud` and print through `_print`.  The remote client is the spec's
external-collaborator boundary, so its verbs are modelled as an oracle
(`RemoteService`), and each helper is modelled as a function returning the
trace of observable events performed together with either its Python return
value, a `sys.exit` code, or a propagated remote error.
-/

/-- Modelled from the spec: the `PipelineTagGet` schema
(`pipeline/schemas/pipeline.py` is not among the shown sources); the helpers
read exactly the fields `id`, `name` and `pipeline_id` from it. -/
structure PipelineTagGet where
  id : String
  name : String
  pipeline_id : String

/-- Modelled from the spec: the `Paginated` wrapper
(`pipeline/schemas/pagination.py` is not among the shown sources); the CLI
reads only its `data` field. -/
structure Paginated (α : Type) where
  data : List α

/-- Modelled from the spec: an opaque remote-call failure (network or HTTP
error status), carried unchanged when surfaced to the caller. -/
structure RemoteError where
  msg : String

/-- Observable events of the CLI helpers: `_print` messages (with optional
level), a printed table of tag rows, and the remote verbs with the path and
payload data each helper sends. -/
inductive Event where
  | printMsg (msg : String) (level : Option String)
  | printTable (rows : List (String × String × String))
  | remoteGet (path : String)
  | remoteGetList (path : String) (skip limit : Int) (order_by : String)
      (pipeline_id : Option String)
  | remotePost (path : String) (name pipeline_id : String)
  | remotePatch (path : String) (pipeline_id : String)
  | remoteDelete (path : String)

/-- Modelled from the spec: the generic REST verbs of `PipelineCloud`, an
external collaborator returning decoded (already parsed) responses or a
remote failure.  Separate fields reflect the differently-shaped endpoints the
tag helpers use. -/
structure RemoteService where
  getTag : String → Except RemoteError PipelineTagGet
  getList : String → Int → Int → String → Option String →
      Except RemoteError (Paginated PipelineTagGet)
  postTag : String → String → String → Except RemoteError PipelineTagGet
  patchTag : String → String → Except RemoteError PipelineTagGet
  deleteTag : String → Except RemoteError Unit

/-- Ways a helper can terminate abnormally: `sys.exit(code)` or an exception
raised by a remote verb, propagated as-is. -/
inductive Failure where
  | exited (code : Nat)
  | remoteError (e : RemoteError)

/-- Translation of `_get_tag`: validate the tag name, else print an error and
`sys.exit(1)`; on success `_get` the tag by name. -/
def get_tag (svc : RemoteService) (tag_name : String) :
    List Event × Except Failure PipelineTagGet :=
  if VALID_TAG_NAME_match tag_name then
    match svc.getTag ("/v2/pipeline-tags/by-name/" ++ tag_name) with
    | .ok info =>
        ([Event.remoteGet ("/v2/pipeline-tags/by-name/" ++ tag_name)], .ok info)
    | .error e =>
        ([Event.remoteGet ("/v2/pipeline-tags/by-name/" ++ tag_name)],
          .error (.remoteError e))
  else
    ([Event.printMsg "Source tag must match pattern \x27pipeline:tag\x27"
        (some "ERROR")], .error (.exited 1))

/-- Translation of `_update_or_create_tag`: validate the target (error exit if
invalid); if the source matches the tag pattern resolve it through `_get_tag`
to its `pipeline_id`, otherwise use the source string itself as the pipeline
id; then `_post` a new tag for "create", or `_get` the existing target tag
and `_patch` it for any other sub-command. -/
def update_or_create_tag (svc : RemoteService) (source target sub_command : String) :
    List Event × Except Failure PipelineTagGet :=
  if !(VALID_TAG_NAME_match target) then
    ([Event.printMsg "Target tag must match pattern \x27pipeline:tag\x27"
        (some "ERROR")], .error (.exited 1))
  else
    let srcRes : List Event × Except Failure String :=
      if VALID_TAG_NAME_match source then
        match get_tag svc source with
        | (evs, .ok schema) => (evs, .ok schema.pipeline_id)
        | (evs, .error f) => (evs, .error f)
      else ([], .ok source)
    match srcRes with
    | (evs1, .error f) => (evs1, .error f)
    | (evs1, .ok source_pipeline) =>
      if sub_command = "create" then
        match svc.postTag "/v2/pipeline-tags" target source_pipeline with
        | .ok resp =>
            (evs1 ++ [Event.remotePost "/v2/pipeline-tags" target source_pipeline],
              .ok resp)
        | .error e =>
            (evs1 ++ [Event.remotePost "/v2/pipeline-tags" target source_pipeline],
              .error (.remoteError e))
      else
        match get_tag svc target with
        | (evs2, .error f) => (evs1 ++ evs2, .error f)
        | (evs2, .ok existing) =>
          match svc.patchTag ("/v2/pipeline-tags/" ++ existing.id) source_pipeline with
          | .ok resp =>
              (evs1 ++ evs2 ++
                [Event.remotePatch ("/v2/pipeline-tags/" ++ existing.id)
                  source_pipeline], .ok resp)
          | .error e =>
              (evs1 ++ evs2 ++
                [Event.remotePatch ("/v2/pipeline-tags/" ++ existing.id)
                  source_pipeline], .error (.remoteError e))

/-- Translation of `_list_tags`: one `_get` on `/v2/pipeline-tags` with the
pagination parameters and `order_by="created_at:desc"`. -/
def list_tags (svc : RemoteService) (skip limit : Int) (pipeline_id : Option String) :
    List Event × Except Failure (Paginated PipelineTagGet) :=
  match svc.getList "/v2/pipeline-tags" skip limit "created_at:desc" pipeline_id with
  | .ok page =>
      ([Event.remoteGetList "/v2/pipeline-tags" skip limit "created_at:desc"
          pipeline_id], .ok page)
  | .error e =>
      ([Event.remoteGetList "/v2/pipeline-tags" skip limit "created_at:desc"
          pipeline_id], .error (.remoteError e))

/-- Translation of `_delete_tag`: resolve the tag through `_get_tag` (which
validates the name), then `_delete` it by id. -/
def delete_tag (svc : RemoteService) (tag_name : String) :
    List Event × Except Failure Unit :=
  match get_tag svc tag_name with
  | (evs, .error f) => (evs, .error f)
  | (evs, .ok info) =>
    match svc.deleteTag ("/v2/pipeline-tags/" ++ info.id) with
    | .ok _ => (evs ++ [Event.remoteDelete ("/v2/pipeline-tags/" ++ info.id)], .ok ())
    | .error e =>
        (evs ++ [Event.remoteDelete ("/v2/pipeline-tags/" ++ info.id)],
          .error (.remoteError e))

/-- Arguments of the `tags` entry point as read off the argparse namespace:
`sub-command` is read with a `None` default, the others are read in the
branches that need them. -/
structure TagArgs where
  sub_command : Option String
  source : String
  target : String
  pipeline_tag : String
  skip : Int
  limit : Int
  pipeline_id : Option String

/-- Recognized sub-commands of the `tags` entry point. -/
def recognizedSubCommands : List String :=
  ["create", "update", "list", "ls", "delete", "rm", "get"]

/-- Translation of the `tags` entry point: dispatch on the sub-command,
run the matching helper, print its result and return `0`; any unrecognized
(or missing) sub-command falls off the end of the `if/elif` chain and
returns Python `None`, modelled as `Option.none`. -/
def tags (svc : RemoteService) (args : TagArgs) :
    List Event × Except Failure (Option Int) :=
  match args.sub_command with
  | none => ([], .ok none)
  | some sc =>
    if sc = "create" ∨ sc = "update" then
      match update_or_create_tag svc args.source args.target sc with
      | (evs, .error f) => (evs, .error f)
      | (evs, .ok tg) =>
          (evs ++ [Event.printMsg
            ("Tag \x27" ++ tg.name ++ "\x27 -> \x27" ++ tg.pipeline_id ++ "\x27")
            none], .ok (some 0))
    else if sc = "list" ∨ sc = "ls" then
      match list_tags svc args.skip args.limit args.pipeline_id with
      | (evs, .error f) => (evs, .error f)
      | (evs, .ok page) =>
          (evs ++ [Event.printTable
            (page.data.map fun tg => (tg.id, tg.name, tg.pipeline_id))],
            .ok (some 0))
    else if sc = "delete" ∨ sc = "rm" then
      match delete_tag svc args.pipeline_tag with
      | (evs, .error f) => (evs, .error f)
      | (evs, .ok _) =>
          (evs ++ [Event.printMsg ("Deleted " ++ args.pipeline_tag) none],
            .ok (some 0))
    else if sc = "get" then
      match get_tag svc args.pipeline_tag with
      | (evs, .error f) => (evs, .error f)
      | (evs, .ok info) =>
          (evs ++ [Event.printTable [(info.id, info.name, info.pipeline_id)]],
            .ok (some 0))
    else ([], .ok none)

/-- Concrete remote service whose endpoints all succeed, used in witnesses. -/
def svcOkW : RemoteService where
  getTag := fun _ => .ok ⟨"tid", "ab:cd", "pid"⟩
  getList := fun _ _ _ _ _ => .ok ⟨[⟨"tid", "ab:cd", "pid"⟩]⟩
  postTag := fun _ _ _ => .ok ⟨"tid2", "ab:cd", "pid"⟩
  patchTag := fun _ _ => .ok ⟨"tid3", "ab:cd", "pid"⟩
  deleteTag := fun _ => .ok ()

/-- Concrete remote service whose endpoints all fail, used in witnesses. -/
def svcErrW : RemoteService where
  getTag := fun _ => .error ⟨"boom"⟩
  getList := fun _ _ _ _ _ => .error ⟨"boom"⟩
  postTag := fun _ _ _ => .error ⟨"boom"⟩
  patchTag := fun _ _ => .error ⟨"boom"⟩
  deleteTag := fun _ => .error ⟨"boom"⟩

/-- Concrete remote service whose reads succeed but whose mutating endpoints
fail, used in witnesses. -/
def svcGetOkW : RemoteService where
  getTag := fun _ => .ok ⟨"tid", "ab:cd", "pid"⟩
  getList := fun _ _ _ _ _ => .ok ⟨[]⟩
  postTag := fun _ _ _ => .error ⟨"boom"⟩
  patchTag := fun _ _ => .error ⟨"boom"⟩
  deleteTag := fun _ => .error ⟨"boom"⟩

/-- Claim C4: a tag name that fails validation makes each CRUD helper print a
user-facing error message and exit with code 1, with no remote verb issued:
the whole event trace is the single `_print` call.  In `_update_or_create_tag`
the validated tag-name argument is `target`; the `source` argument is, by
design, treated as a pipeline id when it does not match the tag pattern. -/
theorem C4_invalid_tag_rejected_before_remote (svc : RemoteService)
    (name source target sub : String)
    (hname : VALID_TAG_NAME_match name = false)
    (htarget : VALID_TAG_NAME_match target = false) :
    get_tag svc name =
      ([Event.printMsg "Source tag must match pattern \x27pipeline:tag\x27"
          (some "ERROR")], .error (.exited 1)) ∧
    delete_tag svc name =
      ([Event.printMsg "Source tag must match pattern \x27pipeline:tag\x27"
          (some "ERROR")], .error (.exited 1)) ∧
    update_or_create_tag svc source target sub =
      ([Event.printMsg "Target tag must match pattern \x27pipeline:tag\x27"
          (some "ERROR")], .error (.exited 1)) := by
  have h1 : get_tag svc name =
      ([Event.printMsg "Source tag must match pattern \x27pipeline:tag\x27"
          (some "ERROR")], .error (.exited 1)) := by
    simp [get_tag, hname]
  refine ⟨h1, ?_, ?_⟩
  · simp [delete_tag, h1]
  · simp [update_or_create_tag, htarget]

/-- Claim C4, witness: the invalid name `"bad"` is rejected by `_get_tag`,
`_delete_tag` and (as target) `_update_or_create_tag` with only the error
print in the trace. -/
theorem C4_invalid_tag_rejected_before_remote_witness :
    VALID_TAG_NAME_match "bad" = false ∧
    get_tag svcOkW "bad" =
      ([Event.printMsg "Source tag must match pattern \x27pipeline:tag\x27"
          (some "ERROR")], .error (.exited 1)) ∧
    update_or_create_tag svcOkW "src" "bad" "create" =
      ([Event.printMsg "Target tag must match pattern \x27pipeline:tag\x27"
          (some "ERROR")], .error (.exited 1)) := by
  have h := C4_invalid_tag_rejected_before_remote svcOkW "bad" "src" "bad" "create"
    (by decide) (by decide)
  exact ⟨by decide, h.1, h.2.2⟩

/-- Claim C6: a failure returned by a remote verb is surfaced by every tag
CRUD helper as the same `RemoteError` value, wrapped in `Failure.remoteError`:
no helper catches, retries or replaces it.  One conjunct per remote call site
(`_get` in `_get_tag` and `_list_tags`, both calls of `_delete_tag`, the
`_post` of "create" and the `_patch` of "update"). -/
theorem C6_remote_errors_propagate (svc : RemoteService) (e : RemoteError)
    (name source target : String) (skip limit : Int) (pid : Option String)
    (info : PipelineTagGet) :
    (VALID_TAG_NAME_match name = true →
      svc.getTag ("/v2/pipeline-tags/by-name/" ++ name) = .error e →
      (get_tag svc name).2 = .error (.remoteError e)) ∧
    (svc.getList "/v2/pipeline-tags" skip limit "created_at:desc" pid = .error e →
      (list_tags svc skip limit pid).2 = .error (.remoteError e)) ∧
    (VALID_TAG_NAME_match name = true →
      svc.getTag ("/v2/pipeline-tags/by-name/" ++ name) = .error e →
      (delete_tag svc name).2 = .error (.remoteError e)) ∧
    (VALID_TAG_NAME_match name = true →
      svc.getTag ("/v2/pipeline-tags/by-name/" ++ name) = .ok info →
      svc.deleteTag ("/v2/pipeline-tags/" ++ info.id) = .error e →
      (delete_tag svc name).2 = .error (.remoteError e)) ∧
    (VALID_TAG_NAME_match target = true →
      VALID_TAG_NAME_match source = false →
      svc.postTag "/v2/pipeline-tags" target source = .error e →
      (update_or_create_tag svc source target "create").2 = .error (.remoteError e)) ∧
    (VALID_TAG_NAME_match target = true →
      VALID_TAG_NAME_match source = false →
      svc.getTag ("/v2/pipeline-tags/by-name/" ++ target) = .ok info →
      svc.patchTag ("/v2/pipeline-tags/" ++ info.id) source = .error e →
      (update_or_create_tag svc source target "update").2 = .error (.remoteError e)) := by
  refine ⟨?_, ?_, ?_, ?_, ?_, ?_⟩
  · intro hv he
    simp [get_tag, hv, he]
  · intro he
    simp [list_tags, he]
  · intro hv he
    simp [delete_tag, get_tag, hv, he]
  · intro hv hok he
    simp [delete_tag, get_tag, hv, hok, he]
  · intro hv hs he
    simp [update_or_create_tag, hv, hs, he]
  · intro hv hs hok he
    simp [update_or_create_tag, get_tag, hv, hs, hok, he]

/-- Claim C6, witness: concrete services exercising every propagation
conjunct of `C6_remote_errors_propagate`. -/
theorem C6_remote_errors_propagate_witness :
    (get_tag svcErrW "ab:cd").2 = .error (.remoteError ⟨"boom"⟩) ∧
    (list_tags svcErrW 0 20 none).2 = .error (.remoteError ⟨"boom"⟩) ∧
    (delete_tag svcGetOkW "ab:cd").2 = .error (.remoteError ⟨"boom"⟩) ∧
    (update_or_create_tag svcErrW "src" "ab:cd" "create").2 =
      .error (.remoteError ⟨"boom"⟩) ∧
    (update_or_create_tag svcGetOkW "src" "ab:cd" "update").2 =
      .error (.remoteError ⟨"boom"⟩) := by
  refine ⟨?_, ?_, ?_, ?_, ?_⟩
  · exact (C6_remote_errors_propagate svcErrW ⟨"boom"⟩ "ab:cd" "src" "ab:cd" 0 20
      none ⟨"tid", "ab:cd", "pid"⟩).1 (by decide) rfl
  · exact (C6_remote_errors_propagate svcErrW ⟨"boom"⟩ "ab:cd" "src" "ab:cd" 0 20
      none ⟨"tid", "ab:cd", "pid"⟩).2.1 rfl
  · exact (C6_remote_errors_propagate svcGetOkW ⟨"boom"⟩ "ab:cd" "src" "ab:cd" 0 20
      none ⟨"tid", "ab:cd", "pid"⟩).2.2.2.1 (by decide) rfl rfl
  · exact (C6_remote_errors_propagate svcErrW ⟨"boom"⟩ "ab:cd" "src" "ab:cd" 0 20
      none ⟨"tid", "ab:cd", "pid"⟩).2.2.2.2.1 (by decide) (by decide) rfl
  · exact (C6_remote_errors_propagate svcGetOkW ⟨"boom"⟩ "ab:cd" "src" "ab:cd" 0 20
      none ⟨"tid", "ab:cd", "pid"⟩).2.2.2.2.2 (by decide) (by decide) rfl rfl

/-- Claim C7: whenever the `tags` entry point completes normally on a
recognized sub-command it returns exit code 0 (a failing helper instead exits
or propagates the failure, and never yields another return value), and on any
other sub-command value, including a missing one, it returns Python `None`
with an empty event trace, so no tag operation or remote call is performed. -/
theorem C7_tags_exit_codes (svc : RemoteService) (args : TagArgs) :
    (∀ sc, args.sub_command = some sc → sc ∈ recognizedSubCommands →
      (∃ evs f, tags svc args = (evs, .error f)) ∨
      (∃ evs, tags svc args = (evs, .ok (some 0)))) ∧
    ((∀ sc, args.sub_command = some sc → sc ∉ recognizedSubCommands) →
      tags svc args = ([], .ok none)) := by
  constructor
  · intro sc hsc hmem
    simp only [recognizedSubCommands, List.mem_cons, List.mem_singleton,
      List.not_mem_nil, or_false] at hmem
    rcases hmem with rfl | rfl | rfl | rfl | rfl | rfl | rfl
    · rcases h : update_or_create_tag svc args.source args.target "create" with ⟨evs, r⟩
      cases r with
      | error f => exact Or.inl ⟨evs, f, by simp [tags, hsc, h]⟩
      | ok tg =>
        exact Or.inr ⟨evs ++ [Event.printMsg
          ("Tag \x27" ++ tg.name ++ "\x27 -> \x27" ++ tg.pipeline_id ++ "\x27")
          none], by simp [tags, hsc, h]⟩
    · rcases h : update_or_create_tag svc args.source args.target "update" with ⟨evs, r⟩
      cases r with
      | error f => exact Or.inl ⟨evs, f, by simp [tags, hsc, h]⟩
      | ok tg =>
        exact Or.inr ⟨evs ++ [Event.printMsg
          ("Tag \x27" ++ tg.name ++ "\x27 -> \x27" ++ tg.pipeline_id ++ "\x27")
          none], by simp [tags, hsc, h]⟩
    · rcases h : list_tags svc args.skip args.limit args.pipeline_id with ⟨evs, r⟩
      cases r with
      | error f => exact Or.inl ⟨evs, f, by simp [tags, hsc, h]⟩
      | ok page =>
        exact Or.inr ⟨evs ++ [Event.printTable
          (List.map (fun tg => (tg.id, tg.name, tg.pipeline_id)) page.data)],
          by simp [tags, hsc, h]⟩
    · rcases h : list_tags svc args.skip args.limit args.pipeline_id with ⟨evs, r⟩
      cases r with
      | error f => exact Or.inl ⟨evs, f, by simp [tags, hsc, h]⟩
      | ok page =>
        exact Or.inr ⟨evs ++ [Event.printTable
          (List.map (fun tg => (tg.id, tg.name, tg.pipeline_id)) page.data)],
          by simp [tags, hsc, h]⟩
    · rcases h : delete_tag svc args.pipeline_tag with ⟨evs, r⟩
      cases r with
      | error f => exact Or.inl ⟨evs, f, by simp [tags, hsc, h]⟩
      | ok u =>
        exact Or.inr ⟨evs ++ [Event.printMsg ("Deleted " ++ args.pipeline_tag) none],
          by simp [tags, hsc, h]⟩
    · rcases h : delete_tag svc args.pipeline_tag with ⟨evs, r⟩
      cases r with
      | error f => exact Or.inl ⟨evs, f, by simp [tags, hsc, h]⟩
      | ok u =>
        exact Or.inr ⟨evs ++ [Event.printMsg ("Deleted " ++ args.pipeline_tag) none],
          by simp [tags, hsc, h]⟩
    · rcases h : get_tag svc args.pipeline_tag with ⟨evs, r⟩
      cases r with
      | error f => exact Or.inl ⟨evs, f, by simp [tags, hsc, h]⟩
      | ok info =>
        exact Or.inr ⟨evs ++ [Event.printTable [(info.id, info.name, info.pipeline_id)]],
          by simp [tags, hsc, h]⟩
  · intro h
    cases hsc : args.sub_command with
    | none => simp [tags, hsc]
    | some sc =>
      have hne := h sc hsc
      simp only [recognizedSubCommands, List.mem_cons, List.mem_singleton,
        List.not_mem_nil, or_false, not_or] at hne
      obtain ⟨h1, h2, h3, h4, h5, h6, h7⟩ := hne
      simp [tags, hsc, h1, h2, h3, h4, h5, h6, h7]

/-- Concrete arguments selecting the `get` sub-command, for the C7 witness. -/
def argsGetW : TagArgs := ⟨some "get", "", "", "ab:cd", 0, 20, none⟩

/-- Concrete arguments with an unrecognized sub-command, for the C7 witness. -/
def argsBogusW : TagArgs := ⟨some "bogus", "", "", "", 0, 20, none⟩

/-- Claim C7, witness: both parts of `C7_tags_exit_codes` at concrete
arguments. -/
theorem C7_tags_exit_codes_witness :
    ((∃ evs f, tags svcOkW argsGetW = (evs, .error f)) ∨
      (∃ evs, tags svcOkW argsGetW = (evs, .ok (some 0)))) ∧
    tags svcOkW argsBogusW = ([], .ok none) := by
  constructor
  · exact (C7_tags_exit_codes svcOkW argsGetW).1 "get" rfl (by decide)
  · refine (C7_tags_exit_codes svcOkW argsBogusW).2 ?_
    intro sc h
    have h' : some "bogus" = some sc := h
    injection h' with h''
    subst h''
    decide

/-!
### `StableDiffusionTxt2ImgModel.predict`
(`examples/pipeline_cloud/premade/stable_diffusion/stable-diffusion-v2.0:v1.0-fp32.py`)

The function merges `batch_kwargs` over a default dict, runs `isinstance`
and range checks in source order, then loops over the prompts, seeding and
calling the model per prompt.  Python values that can appear in the kwargs
dict are modelled by `PyVal`; note that Python's `bool` is a subclass of
`int`, so `isinstance(True, int)` holds.  The torch model call and the
`random.randint` draws are external: the call is recorded as an event and
the random stream is a parameter.
-/

/-- Python values appearing in `batch_kwargs` / prompt dicts.  Floats occur
in the source only as decimal literals (`7.5`, `0.0`) that are stored,
compared for equality and truthiness, never arithmetically combined, so an
exact rational carrier is faithful. -/
inductive PyVal where
  | vint (n : Int)
  | vbool (b : Bool)
  | vfloat (q : Rat)
  | vstr (s : String)
  | vnone
  deriving DecidableEq

/-- Python `isinstance(v, int)`: true for `int` and for `bool` (a subclass
of `int`). -/
def isinstanceInt : PyVal → Bool
  | .vint _ => true
  | .vbool _ => true
  | _ => false

/-- Numeric value of an `int`-like Python value (`True == 1`, `False == 0`).
Only applied after an `isinstance(·, int)` check has passed; the remaining
constructors are unreachable there. -/
def pyToInt : PyVal → Int
  | .vint n => n
  | .vbool true => 1
  | .vbool false => 0
  | _ => 0

/-- Python truthiness of a value, as used by `elif kwargs["randomise_seed"]:`. -/
def pyTruthy : PyVal → Bool
  | .vint n => n ≠ 0
  | .vbool b => b
  | .vfloat q => q ≠ 0
  | .vstr s => s ≠ ""
  | .vnone => false

/-- Python `v == 1`, as used by `if kwargs["guidance_scale"] == 1:`. -/
def pyEqOne : PyVal → Bool
  | .vint n => n = 1
  | .vbool b => b
  | .vfloat q => q = 1
  | _ => false

/-- One prompt dict: `text_in` plus an optional `"seed"` key holding an
integer. -/
structure Prompt where
  text_in : String
  seed : Option Int

/-- The caller-supplied `batch_kwargs` dict: each recognized key either
absent or bound to a Python value. -/
structure BatchKwargs where
  num_samples : Option PyVal
  height : Option PyVal
  width : Option PyVal
  seed : Option PyVal
  num_inference_steps : Option PyVal
  guidance_scale : Option PyVal
  eta : Option PyVal
  randomise_seed : Option PyVal

/-- The merged dict `kwargs = {**default_batch_kwargs, **batch_kwargs}`.
Every defaulted key is present afterwards; `"seed"` has no default and stays
optional. -/
structure MergedKwargs where
  num_samples : PyVal
  num_inference_steps : PyVal
  guidance_scale : PyVal
  eta : PyVal
  randomise_seed : PyVal
  width : PyVal
  height : PyVal
  seed : Option PyVal

/-- Merge of `batch_kwargs` over `default_batch_kwargs`. -/
def mergeDefaults (bk : BatchKwargs) : MergedKwargs where
  num_samples := bk.num_samples.getD (.vint 1)
  num_inference_steps := bk.num_inference_steps.getD (.vint 50)
  guidance_scale := bk.guidance_scale.getD (.vfloat (15 / 2 : Rat))
  eta := bk.eta.getD (.vfloat 0)
  randomise_seed := bk.randomise_seed.getD (.vbool true)
  width := bk.width.getD (.vint 512)
  height := bk.height.getD (.vint 512)
  seed := bk.seed

/-- Exceptions `predict` can raise before or while looping. -/
inductive PredictError where
  | typeError (msg : String)
  | valueError (msg : String)
  | keyError (key : String)
  deriving DecidableEq

/-- The `isinstance` and range checks of `predict`, in source order.  The
`.get` defaults of the source (`kwargs.get("width", 0)` etc.) are irrelevant
for the defaulted keys, which are always present after the merge; only
`"seed"` can be absent, in which case `kwargs.get("seed", 1)` checks the
integer `1`. -/
def validateKwargs (kw : MergedKwargs) : Except PredictError Unit :=
  if !(isinstanceInt kw.num_samples) then
    .error (.typeError "num_samples must be an integer.")
  else if !(isinstanceInt kw.width) then
    .error (.typeError "width must be an integer because half-pixels don\x27t exist.")
  else if !(isinstanceInt kw.height) then
    .error (.typeError "height must be an integer because half-pixels don\x27t exist.")
  else if !(isinstanceInt (kw.seed.getD (.vint 1))) then
    .error (.typeError "seed must be an integer.")
  else if !(isinstanceInt kw.num_inference_steps) then
    .error (.typeError
      "num_inference_steps must be an integer because denoising is done in full non-fractional steps.")
  else if 4 < pyToInt kw.num_samples then
    .error (.valueError "num_samples must be less than 4 in this version of the pipeline.")
  else if pyToInt kw.width < 1 then
    .error (.valueError "width can\x27t be negative or 0.")
  else if pyToInt kw.height < 1 then
    .error (.valueError "height can\x27t be negative or 0.")
  else if pyToInt kw.num_inference_steps < 1 then
    .error (.valueError "num_inference_steps can\x27t be negative or 0.")
  else .ok ()

/-- Events of the prompt loop: the `seed_everything` side effect and the
model invocation with the parameters the source passes. -/
inductive ModelEvent where
  | seedEverything (seed : Int)
  | modelCall (text : String) (seed : Int) (num_samples num_inference_steps
      width height : Int)

/-- Whether an event is a model invocation. -/
def isModelCall : ModelEvent → Bool
  | .modelCall .. => true
  | _ => false

/-- Per-prompt result: the fields of the `prompt_dict` the loop appends
(the images themselves come from the external model; their count and the
metadata fields are recorded). -/
structure PromptOutput where
  text_in : String
  seed_used : Int
  metadata_seed : Int
  classifier_free_guidance : Bool

/-- One iteration of the prompt loop.  Mirrors the source: the seeding
branch may mutate `prompt["seed"]`; the metadata `"seed"` entry re-evaluates
the conditional on the mutated prompt, falling back to
`base_seed_if_not_randomised`; then `prompt["seed"]` is read to build the
generator, raising `KeyError("seed")` when the key is still absent; finally
the model is invoked.  `rng c` is the value `random.randint(1, 1000000)`
would return at draw index `c`. -/
def runPrompt (kw : MergedKwargs) (baseSeed : Int) (rng : Nat → Int) (c : Nat)
    (p : Prompt) : List ModelEvent × Except PredictError PromptOutput × Nat :=
  let seeded : List ModelEvent × Prompt × Nat × Option Int :=
    match p.seed with
    | some s => ([ModelEvent.seedEverything s], p, c, none)
    | none =>
      match kw.seed with
      | some v =>
          ([ModelEvent.seedEverything (pyToInt v)],
            { p with seed := some (pyToInt v) }, c, none)
      | none =>
        if pyTruthy kw.randomise_seed then
          ([ModelEvent.seedEverything (rng c)],
            { p with seed := some (rng c) }, c + 1, some (rng c))
        else ([], p, c, none)
  match seeded with
  | (evs, p2, c2, drawn) =>
    let mseed : Int :=
      match p2.seed with
      | some s => s
      | none =>
        match kw.seed with
        | some v => pyToInt v
        | none =>
          if pyTruthy kw.randomise_seed then drawn.getD 0 else baseSeed
    match p2.seed with
    | none => (evs, .error (.keyError "seed"), c2)
    | some gseed =>
        (evs ++ [ModelEvent.modelCall p.text_in gseed (pyToInt kw.num_samples)
          (pyToInt kw.num_inference_steps) (pyToInt kw.width) (pyToInt kw.height)],
          .ok { text_in := p.text_in, seed_used := gseed, metadata_seed := mseed,
                classifier_free_guidance := !(pyEqOne kw.guidance_scale) }, c2)

/-- The prompt loop: iterations run in order and the first raised exception
aborts the loop, keeping the events of the completed part. -/
def predictLoop (kw : MergedKwargs) (baseSeed : Int) (rng : Nat → Int) :
    Nat → List Prompt → List ModelEvent × Except PredictError (List PromptOutput)
  | _, [] => ([], .ok [])
  | c, p :: ps =>
    match runPrompt kw baseSeed rng c p with
    | (evs, .error e, _) => (evs, .error e)
    | (evs, .ok out, c2) =>
      match predictLoop kw baseSeed rng c2 ps with
      | (evs2, .error e) => (evs ++ evs2, .error e)
      | (evs2, .ok outs) => (evs ++ evs2, .ok (out :: outs))

/-- Translation of `predict`: merge the kwargs, validate, draw
`base_seed_if_not_randomised` (draw index 0), then loop over the prompts
(draw indices from 1). -/
def predict (prompts : List Prompt) (bk : BatchKwargs) (rng : Nat → Int) :
    List ModelEvent × Except PredictError (List PromptOutput) :=
  let kw := mergeDefaults bk
  match validateKwargs kw with
  | .error e => ([], .error e)
  | .ok _ => predictLoop kw (rng 0) rng 1 prompts

lemma predict_validate_error {bk : BatchKwargs} {rng : Nat → Int}
    {prompts : List Prompt} {e : PredictError}
    (h : validateKwargs (mergeDefaults bk) = .error e) :
    predict prompts bk rng = ([], .error e) := by
  simp [predict, h]

/-- The five `isinstance` error messages of `predict`, in check order. -/
def typeErrorMessages : List String :=
  ["num_samples must be an integer.",
   "width must be an integer because half-pixels don\x27t exist.",
   "height must be an integer because half-pixels don\x27t exist.",
   "seed must be an integer.",
   "num_inference_steps must be an integer because denoising is done in full non-fractional steps."]

/-- The four range error messages of `predict`, in check order. -/
def valueErrorMessages : List String :=
  ["num_samples must be less than 4 in this version of the pipeline.",
   "width can\x27t be negative or 0.",
   "height can\x27t be negative or 0.",
   "num_inference_steps can\x27t be negative or 0."]

lemma validate_typeError_of_nonint {kw : MergedKwargs}
    (h : isinstanceInt kw.num_samples = false ∨ isinstanceInt kw.width = false ∨
      isinstanceInt kw.height = false ∨
      isinstanceInt (kw.seed.getD (.vint 1)) = false ∨
      isinstanceInt kw.num_inference_steps = false) :
    ∃ msg, msg ∈ typeErrorMessages ∧
      validateKwargs kw = .error (.typeError msg) := by
  unfold validateKwargs
  split_ifs with h1 h2 h3 h4 h5 h6 h7 h8 h9
  · exact ⟨_, by simp [typeErrorMessages], rfl⟩
  · exact ⟨_, by simp [typeErrorMessages], rfl⟩
  · exact ⟨_, by simp [typeErrorMessages], rfl⟩
  · exact ⟨_, by simp [typeErrorMessages], rfl⟩
  · exact ⟨_, by simp [typeErrorMessages], rfl⟩
  all_goals simp only [Bool.not_eq_true', Bool.not_eq_false] at h1 h2 h3 h4 h5
  all_goals simp_all

lemma validate_valueError_of_range {kw : MergedKwargs}
    (hi1 : isinstanceInt kw.num_samples = true)
    (hi2 : isinstanceInt kw.width = true)
    (hi3 : isinstanceInt kw.height = true)
    (hi4 : isinstanceInt (kw.seed.getD (.vint 1)) = true)
    (hi5 : isinstanceInt kw.num_inference_steps = true)
    (h : 4 < pyToInt kw.num_samples ∨ pyToInt kw.width < 1 ∨
      pyToInt kw.height < 1 ∨ pyToInt kw.num_inference_steps < 1) :
    ∃ msg, msg ∈ valueErrorMessages ∧
      validateKwargs kw = .error (.valueError msg) := by
  unfold validateKwargs
  split_ifs with h1 h2 h3 h4 h5 h6 h7 h8 h9
  all_goals first
    | exact ⟨_, by simp [valueErrorMessages], rfl⟩
    | simp_all

/-- Claim C5: at local-execution time, a non-integer `width`, `height`,
`seed`, `num_samples` or `num_inference_steps` (in Python's sense, where a
`bool` is an integer) makes `predict` raise a `TypeError` with one of its
descriptive messages, and — once the types are right — an out-of-range value
(`num_samples > 4`, or `width`, `height` or `num_inference_steps` < 1) makes
it raise a `ValueError` with one of its descriptive messages; in both cases
the event trace is empty, so the model is never invoked. -/
theorem C5_predict_parameter_validation (prompts : List Prompt)
    (bk : BatchKwargs) (rng : Nat → Int) :
    ((isinstanceInt (mergeDefaults bk).num_samples = false ∨
      isinstanceInt (mergeDefaults bk).width = false ∨
      isinstanceInt (mergeDefaults bk).height = false ∨
      isinstanceInt ((mergeDefaults bk).seed.getD (.vint 1)) = false ∨
      isinstanceInt (mergeDefaults bk).num_inference_steps = false) →
      ∃ msg, msg ∈ typeErrorMessages ∧
        predict prompts bk rng = ([], .error (.typeError msg))) ∧
    ((isinstanceInt (mergeDefaults bk).num_samples = true ∧
      isinstanceInt (mergeDefaults bk).width = true ∧
      isinstanceInt (mergeDefaults bk).height = true ∧
      isinstanceInt ((mergeDefaults bk).seed.getD (.vint 1)) = true ∧
      isinstanceInt (mergeDefaults bk).num_inference_steps = true) →
      (4 < pyToInt (mergeDefaults bk).num_samples ∨
        pyToInt (mergeDefaults bk).width < 1 ∨
        pyToInt (mergeDefaults bk).height < 1 ∨
        pyToInt (mergeDefaults bk).num_inference_steps < 1) →
      ∃ msg, msg ∈ valueErrorMessages ∧
        predict prompts bk rng = ([], .error (.valueError msg))) := by
  constructor
  · intro h
    obtain ⟨msg, hmem, hv⟩ := validate_typeError_of_nonint h
    exact ⟨msg, hmem, predict_validate_error hv⟩
  · rintro ⟨hi1, hi2, hi3, hi4, hi5⟩ h
    obtain ⟨msg, hmem, hv⟩ := validate_valueError_of_range hi1 hi2 hi3 hi4 hi5 h
    exact ⟨msg, hmem, predict_validate_error hv⟩

/-- Kwargs with a string-valued `width`, for the C5 witness. -/
def bkTypeW : BatchKwargs :=
  ⟨none, none, some (.vstr "wide"), none, none, none, none, none⟩

/-- Kwargs with `num_samples = 5`, for the C5 witness. -/
def bkValueW : BatchKwargs :=
  ⟨some (.vint 5), none, none, none, none, none, none, none⟩

/-- A constant random stream, for witnesses. -/
def rngZeroW : Nat → Int := fun _ => 0

/-- Claim C5, witness: both validation failures of
`C5_predict_parameter_validation` at concrete kwargs. -/
theorem C5_predict_parameter_validation_witness :
    (∃ msg, msg ∈ typeErrorMessages ∧
      predict [] bkTypeW rngZeroW = ([], .error (.typeError msg))) ∧
    (∃ msg, msg ∈ valueErrorMessages ∧
      predict [] bkValueW rngZeroW = ([], .error (.valueError msg))) := by
  constructor
  · exact (C5_predict_parameter_validation [] bkTypeW rngZeroW).1
      (Or.inr (Or.inl (by decide)))
  · exact (C5_predict_parameter_validation [] bkValueW rngZeroW).2
      ⟨by decide, by decide, by decide, by decide, by decide⟩ (Or.inl (by decide))

lemma runPrompt_seeded (kw : MergedKwargs) (baseSeed : Int) (rng : Nat → Int)
    (c : Nat) (p : Prompt) (s : Int) (hp : p.seed = some s) :
    runPrompt kw baseSeed rng c p =
      ([ModelEvent.seedEverything s, ModelEvent.modelCall p.text_in s
          (pyToInt kw.num_samples) (pyToInt kw.num_inference_steps)
          (pyToInt kw.width) (pyToInt kw.height)],
        .ok { text_in := p.text_in, seed_used := s, metadata_seed := s,
              classifier_free_guidance := !(pyEqOne kw.guidance_scale) }, c) := by
  simp [runPrompt, hp]

lemma runPrompt_keyError (kw : MergedKwargs) (baseSeed : Int) (rng : Nat → Int)
    (c : Nat) (p : Prompt) (hp : p.seed = none) (hks : kw.seed = none)
    (hr : pyTruthy kw.randomise_seed = false) :
    runPrompt kw baseSeed rng c p = ([], .error (.keyError "seed"), c) := by
  simp [runPrompt, hp, hks, hr]

lemma predictLoop_first_unseeded (kw : MergedKwargs) (baseSeed : Int)
    (rng : Nat → Int) (hks : kw.seed = none)
    (hr : pyTruthy kw.randomise_seed = false) :
    ∀ (pre : List Prompt), (∀ q ∈ pre, q.seed.isSome = true) →
      ∀ (c : Nat) (p : Prompt), p.seed = none → ∀ (rest : List Prompt),
      ∃ evs, predictLoop kw baseSeed rng c (pre ++ p :: rest) =
        (evs, .error (.keyError "seed")) ∧ evs.countP isModelCall = pre.length := by
  intro pre
  induction pre with
  | nil =>
    intro _ c p hp rest
    refine ⟨[], ?_, rfl⟩
    simp [predictLoop, runPrompt_keyError kw baseSeed rng c p hp hks hr]
  | cons q qs ih =>
    intro hpre c p hp rest
    obtain ⟨s, hs⟩ := Option.isSome_iff_exists.1 (hpre q (by simp))
    obtain ⟨evs, hloop, hcount⟩ :=
      ih (fun r hr2 => hpre r (by simp [hr2])) c p hp rest
    refine ⟨ModelEvent.seedEverything s :: ModelEvent.modelCall q.text_in s
        (pyToInt kw.num_samples) (pyToInt kw.num_inference_steps)
        (pyToInt kw.width) (pyToInt kw.height) :: evs, ?_, ?_⟩
    · simp [predictLoop, runPrompt_seeded kw baseSeed rng c q s hs, hloop]
    · simp [List.countP_cons, isModelCall, hcount]

/-- Claim C8: when `batch_kwargs` carries no `"seed"`, the effective
`randomise_seed` is falsy and the checks pass, then on the first prompt
without a `"seed"` key `predict` raises `KeyError("seed")` while building the
generator (the fallback `base_seed_if_not_randomised` is computed for the
metadata but never stored in the prompt), and the trace contains exactly one
model invocation per earlier (seeded) prompt — none for that prompt. -/
theorem C8_predict_missing_seed_keyerror (bk : BatchKwargs) (rng : Nat → Int)
    (pre : List Prompt) (p : Prompt) (rest : List Prompt)
    (hseed : bk.seed = none)
    (hrand : pyTruthy (mergeDefaults bk).randomise_seed = false)
    (hval : validateKwargs (mergeDefaults bk) = .ok ())
    (hpre : ∀ q ∈ pre, q.seed.isSome = true)
    (hp : p.seed = none) :
    ∃ evs, predict (pre ++ p :: rest) bk rng =
      (evs, .error (.keyError "seed")) ∧ evs.countP isModelCall = pre.length := by
  have hks : (mergeDefaults bk).seed = none := hseed
  obtain ⟨evs, hloop, hcount⟩ :=
    predictLoop_first_unseeded (mergeDefaults bk) (rng 0) rng hks hrand
      pre hpre 1 p hp rest
  refine ⟨evs, ?_, hcount⟩
  simp [predict, hval, hloop]

/-- Kwargs with `randomise_seed = False` and no seed, for the C8 witness. -/
def bkNoSeedW : BatchKwargs :=
  ⟨none, none, none, none, none, none, none, some (.vbool false)⟩

/-- Claim C8, witness: one seeded prompt followed by an unseeded one. -/
theorem C8_predict_missing_seed_keyerror_witness :
    ∃ evs, predict [⟨"a", some 5⟩, ⟨"b", none⟩] bkNoSeedW rngZeroW =
      (evs, .error (.keyError "seed")) ∧ evs.countP isModelCall = 1 := by
  have h := C8_predict_missing_seed_keyerror bkNoSeedW rngZeroW
    [⟨"a", some 5⟩] ⟨"b", none⟩ [] rfl (by decide) rfl (by decide) rfl
  simpa using h

/-!
### File-upload schemas (`pipeline/schemas/file.py`)
-/

/-- The `FileFormat` enum: exactly the variants `hex` and `binary`. -/
inductive FileFormat where
  | hex
  | binary
  deriving DecidableEq

/-- The `FileBase` pydantic model: `file_format` defaults to `hex` (kept for
backwards compatibility per the source comment). -/
structure FileBase where
  name : String
  file_format : FileFormat := FileFormat.hex

/-- The `FileGet` schema: extends `FileBase` with id, path, optional
hex-encoded data and the data size in bytes. -/
structure FileGet extends FileBase where
  id : String
  path : String
  data : Option String
  file_size : Int

/-- The `FileCreate` schema: overrides `name` as optional (so it cannot be a
Lean `extends` of `FileBase`) while inheriting the `file_format` default, and
adds optional `file_bytes`. -/
structure FileCreate where
  name : Option String
  file_format : FileFormat := FileFormat.hex
  file_bytes : Option String

/-- Claim C9: `FileFormat` admits exactly the two values `hex` and `binary`,
and `FileBase`, `FileGet` and `FileCreate` objects constructed without an
explicit `file_format` all default it to `hex`. -/
theorem C9_file_format_defaults :
    (∀ f : FileFormat, f = FileFormat.hex ∨ f = FileFormat.binary) ∧
    (∀ nm, ({ name := nm } : FileBase).file_format = FileFormat.hex) ∧
    (∀ nm i pth d sz,
      ({ name := nm, id := i, path := pth, data := d, file_size := sz } :
        FileGet).file_format = FileFormat.hex) ∧
    (∀ nm fb,
      ({ name := nm, file_bytes := fb } : FileCreate).file_format =
        FileFormat.hex) := by
  refine ⟨?_, fun nm => rfl, fun nm i pth d sz => rfl, fun nm fb => rfl⟩
  intro f
  cases f
  · exact Or.inl rfl
  · exact Or.inr rfl

end PipelineRepo
